import Mathlib

/-! Verification of the typed filter engine of the sales-data dashboard.

Shallow embedding of the row-filtering logic of
`src/app/dashboard/[id]/page.tsx` (the `filteredRowsWithIds` memo,
lines 134–203) together with the JavaScript value coercions it relies on.

Modelling conventions, stated once:

* A cell value (`string | number | Date | null` in the source) is the
  inductive `Value`; a JavaScript object lookup that finds no key yields
  `undefined`, modelled as `none : Option Value`, while an explicit
  `null` cell is `some Value.null`.
* JavaScript numbers are modelled as exact rationals (`ℚ`), with `NaN`
  as `none : Option ℚ`.  IEEE-754 rounding is not modelled; no claim
  below depends on it.  `Infinity`, hexadecimal numerals and exponent-free
  oddities accepted by `Number(...)` beyond plain decimal notation are
  outside the modelled scope; no claim exercises them.
* Date instants are epoch milliseconds (`Int`); an invalid date is
  `none : Option Int`.  Of the many string layouts `new Date(string)`
  accepts, only the ISO `YYYY-MM-DD` form (parsed as UTC midnight, with
  strict month/day range checks, as V8 does) is modelled; every other
  string parses as an invalid date.  No claim exercises another layout.
* `String(x)` for a non-integral number and for a `Date` uses a fixed
  placeholder rendering (JavaScript's shortest-round-trip float printing
  and locale date printing are not modelled); no claim depends on the
  text of those renderings.
-/

namespace Dashboard

/-- A scalar cell value: `string | number | Date | null` in the source.
A `Date` carries its epoch-millisecond instant. -/
inductive Value where
  | str (s : String)
  | num (q : ℚ)
  | date (ms : Int)
  | null
  deriving DecidableEq, Repr

/-- A row's data: `Record<string, string | number | Date | null>`. -/
abbrev Row : Type := List (String × Value)

/-- The filter record (`@/types/filter`), with exactly the fields the
engine reads: `columnName`, `columnType`, `operator`, `isActive`,
`value`, `valueTo?`, `values?`, `from?`, `to?`.  `columnType` and
`operator` stay strings, as in the source's `switch` dispatch. -/
structure Filter where
  id : String
  columnName : String
  columnType : String
  «operator» : String
  isActive : Bool
  value : String
  valueTo : Option String
  values : Option (List String)
  «from» : Option String
  «to» : Option String
  deriving DecidableEq, Repr

/-- A row together with its persistent identifier, as built by the
`rowsWithIds` memo: `{ id: row.id, data: row.data }`. -/
structure RowWithId where
  id : String
  data : Row
  deriving DecidableEq, Repr

/-- JavaScript property lookup `row[name]`: `none` is `undefined`. -/
def jsGet (row : Row) (name : String) : Option Value :=
  (List.find? (fun p => p.1 == name) row).map (·.2)

/-- Value of a decimal digit string (most significant first). -/
def digitsToNat (cs : List Char) : Nat :=
  cs.foldl (fun acc c => acc * 10 + (c.toNat - 48)) 0

/-- Rendering of a number by `String(..)`.  Exact for integral values
(`String(10) = "10"`, `String(-5) = "-5"`); non-integral values use a
placeholder fraction rendering (JavaScript prints the shortest
round-trip decimal of the double, which is not modelled — no claim
depends on stringifying a non-integral number). -/
def numToString (q : ℚ) : String :=
  if q.den = 1 then toString q.num
  else toString q.num ++ "/" ++ toString q.den

/-- Placeholder for `Date.prototype.toString` (locale-dependent text,
not modelled; no claim depends on stringifying a `Date` cell). -/
def dateToString (ms : Int) : String :=
  "[Date " ++ toString ms ++ "]"

/-- Rendering `String(v)` of a defined cell value (`String(null) = "null"`). -/
def Value.jsString : Value → String
  | .str s => s
  | .num q => numToString q
  | .date ms => dateToString ms
  | .null => "null"

/-- Rendering `String(v)` including the undefined case (`String(undefined) =
"undefined"`), as in the category branch `String(value)`. -/
def jsStringU : Option Value → String
  | none => "undefined"
  | some v => v.jsString

/-- Coalesced rendering `String(value ?? '')` of the text branch: `null`/`undefined`
coalesce to the empty string before stringification. -/
def jsTextCoerce : Option Value → String
  | none => ""
  | some .null => ""
  | some v => v.jsString

/-- The rational `sgn · (n · 10^e) / d` of a decimal numeral with sign
`sgn`, mantissa numerator `n`, mantissa denominator `d` and exponent
`e`, assembled with `mkRat` over integer arithmetic. -/
def decToRat (sgn : Int) (n d : Nat) (e : Int) : ℚ :=
  if 0 ≤ e then mkRat (sgn * (n * 10 ^ e.toNat : Nat)) d
  else mkRat (sgn * n) (d * 10 ^ (-e).toNat)

/-- Signed digit run (exponent body): `+12`, `-3`, `45`. -/
def parseSignedDigits (cs : List Char) : Option Int :=
  match cs with
  | '+' :: ds => if !ds.isEmpty && ds.all Char.isDigit then some (digitsToNat ds) else none
  | '-' :: ds => if !ds.isEmpty && ds.all Char.isDigit then some (-(digitsToNat ds : Int)) else none
  | ds => if !ds.isEmpty && ds.all Char.isDigit then some (digitsToNat ds) else none

/-- Trailing exponent of a numeral: empty ⇒ exponent 0, `e`/`E` ⇒
signed digits, anything else ⇒ malformed. -/
def parseExponent (cs : List Char) : Option Int :=
  match cs with
  | [] => some 0
  | 'e' :: rest => parseSignedDigits rest
  | 'E' :: rest => parseSignedDigits rest
  | _ => none

/-- Unsigned decimal numeral: `digits`, `digits.`, `digits.digits`,
`.digits`, each with an optional exponent; yields mantissa numerator,
mantissa denominator and exponent. -/
def parseUnsignedDecimal (cs : List Char) : Option (Nat × Nat × Int) :=
  let ip := cs.takeWhile Char.isDigit
  let rest := cs.dropWhile Char.isDigit
  match rest with
  | '.' :: rest2 =>
    let fp := rest2.takeWhile Char.isDigit
    let rest3 := rest2.dropWhile Char.isDigit
    if ip.isEmpty && fp.isEmpty then none
    else
      (parseExponent rest3).map fun e =>
        (digitsToNat ip * 10 ^ fp.length + digitsToNat fp, 10 ^ fp.length, e)
  | _ =>
    if ip.isEmpty then none
    else (parseExponent rest).map fun e => (digitsToNat ip, 1, e)

/-- Whitespace trim on both ends of a character list. -/
def jsTrim (cs : List Char) : List Char :=
  ((cs.dropWhile Char.isWhitespace).reverse.dropWhile Char.isWhitespace).reverse

/-- Numeric coercion `Number(s)` of a string: trim whitespace, empty string is `0`,
otherwise an optionally signed decimal numeral, else `NaN` (`none`). -/
def jsStringToNumber (s : String) : Option ℚ :=
  let cs := jsTrim s.data
  match cs with
  | [] => some 0
  | '+' :: rest => (parseUnsignedDecimal rest).map fun p => decToRat 1 p.1 p.2.1 p.2.2
  | '-' :: rest => (parseUnsignedDecimal rest).map fun p => decToRat (-1) p.1 p.2.1 p.2.2
  | _ => (parseUnsignedDecimal cs).map fun p => decToRat 1 p.1 p.2.1 p.2.2

/-- Numeric coercion `Number(v)` of a cell: `Number(undefined) = NaN`,
`Number(null) = 0`, a `Date` converts to its epoch milliseconds. -/
def jsToNumber : Option Value → Option ℚ
  | none => none
  | some .null => some 0
  | some (.str s) => jsStringToNumber s
  | some (.num q) => some q
  | some (.date ms) => some (ms : ℚ)

/-- Split a character list on `'-'` separators (the shape check of the
ISO date form; `String.splitOn` restricted to the one-character
separator this file needs). -/
def splitDash : List Char → List (List Char)
  | [] => [[]]
  | '-' :: rest => [] :: splitDash rest
  | c :: rest =>
    match splitDash rest with
    | [] => [[c]]
    | g :: gs => (c :: g) :: gs

/-- Gregorian leap-year test. -/
def leapYear (y : Nat) : Bool :=
  (y % 4 == 0 && y % 100 != 0) || y % 400 == 0

/-- Number of days of month `m` (1–12) of year `y`. -/
def daysInMonth (y m : Nat) : Nat :=
  if m == 2 then (if leapYear y then 29 else 28)
  else if m == 4 || m == 6 || m == 9 || m == 11 then 30
  else 31

/-- Days of year `y` before month `m` (1–12). -/
def daysBeforeMonth (y m : Nat) : Nat :=
  let base := [0, 31, 59, 90, 120, 151, 181, 212, 243, 273, 304, 334].getD (m - 1) 0
  if 2 < m && leapYear y then base + 1 else base

/-- Days from 0001-01-01 to `y`-`m`-`d` in the proleptic Gregorian
calendar (year 0 would underflow in ℕ; the parser below only produces
four-digit years and no claim uses year 0000). -/
def civilDays (y m d : Nat) : Nat :=
  365 * (y - 1) + (y - 1) / 4 - (y - 1) / 100 + (y - 1) / 400 + daysBeforeMonth y m + (d - 1)

/-- Date coercion `new Date(s)` of a string, as epoch milliseconds: the ISO
`YYYY-MM-DD` form parses as UTC midnight with strict month/day range
checks; every other string is modelled as an invalid date (`none`). -/
def jsParseDate (s : String) : Option Int :=
  match splitDash s.data with
  | [ys, ms, ds] =>
    if ys.length == 4 && ms.length == 2 && ds.length == 2
        && ys.all Char.isDigit && ms.all Char.isDigit && ds.all Char.isDigit then
      let y := digitsToNat ys
      let m := digitsToNat ms
      let d := digitsToNat ds
      if 1 ≤ m && m ≤ 12 && 1 ≤ d && d ≤ daysInMonth y m then
        some (((civilDays y m d : Int) - (civilDays 1970 1 1 : Int)) * 86400000)
      else none
    else none
  | _ => none

/-- Date coercion of a cell, `value instanceof Date ? value :
new Date(String(value))`, as an optional instant (`none` = invalid date). -/
def jsToDate : Option Value → Option Int
  | some (.date ms) => some ms
  | v => jsParseDate (jsStringU v)

/-- JavaScript `<` with NaN/invalid-date semantics: any comparison
against `NaN` is false. -/
def optLt {α : Type} [LT α] [DecidableRel ((· < ·) : α → α → Prop)]
    (a b : Option α) : Bool :=
  match a, b with
  | some x, some y => decide (x < y)
  | _, _ => false

/-- JavaScript `<=` with NaN/invalid-date semantics. -/
def optLe {α : Type} [LE α] [DecidableRel ((· ≤ ·) : α → α → Prop)]
    (a b : Option α) : Bool :=
  match a, b with
  | some x, some y => decide (x ≤ y)
  | _, _ => false

/-- JavaScript `===` on numbers: false whenever either side is NaN. -/
def optEq {α : Type} [DecidableEq α] (a b : Option α) : Bool :=
  match a, b with
  | some x, some y => x == y
  | _, _ => false

/-- ASCII `toLowerCase()`: lower-casing character by character
(`Char.toLower`; JavaScript's full-Unicode case mapping beyond ASCII is
not modelled — no claim uses non-ASCII letters). -/
def jsToLower (s : String) : String :=
  String.mk (s.data.map Char.toLower)

/-- JavaScript string `includes`: `t` occurs contiguously in `s`. -/
def jsIncludes (s t : String) : Bool :=
  decide (t.data <:+: s.data)

/-- JavaScript string `startsWith`. -/
def jsStartsWith (s t : String) : Bool :=
  decide (t.data <+: s.data)

/-- JavaScript string `endsWith`. -/
def jsEndsWith (s t : String) : Bool :=
  decide (t.data <:+ s.data)

/-- Truthiness of an optional string field: absent and `""` are falsy. -/
def truthyStr : Option String → Bool
  | none => false
  | some s => !(s == "")

/-- The `case 'text'` branch (page.tsx 145–159): lower-case both the
coalesced cell string and the filter value, then dispatch on the
operator; unrecognized operators return `true`. -/
def textMatches (f : Filter) (value : Option Value) : Bool :=
  let textValue := jsToLower (jsTextCoerce value)
  let filterValue := jsToLower f.value
  if f.«operator» == "equals" then textValue == filterValue
  else if f.«operator» == "contains" then jsIncludes textValue filterValue
  else if f.«operator» == "startsWith" then jsStartsWith textValue filterValue
  else if f.«operator» == "endsWith" then jsEndsWith textValue filterValue
  else true

/-- The `case 'number'` branch (page.tsx 161–176): coerce the cell and
the filter value with `Number(..)`; `filterMax` is `Number(valueTo)`
when `valueTo` is truthy, else `filterNum`; unrecognized operators
return `true`. -/
def numberMatches (f : Filter) (value : Option Value) : Bool :=
  let numValue := jsToNumber value
  let filterNum := jsStringToNumber f.value
  let filterMax := if truthyStr f.valueTo then jsStringToNumber (f.valueTo.getD ("")) else filterNum
  if f.«operator» == "equals" then optEq numValue filterNum
  else if f.«operator» == "greaterThan" then optLt filterNum numValue
  else if f.«operator» == "lessThan" then optLt numValue filterNum
  else if f.«operator» == "between" then optLe filterNum numValue && optLe numValue filterMax
  else true

/-- The `case 'date'` branch (page.tsx 178–191): bounds exist only when
`from` / `to` are truthy; on operator `dateRange` compare inclusively
against whichever bounds exist, and fall through to `true` otherwise. -/
def dateMatches (f : Filter) (value : Option Value) : Bool :=
  let dateValue := jsToDate value
  let fromDate := if truthyStr f.«from» then some (jsParseDate (f.«from».getD (""))) else none
  let toDate := if truthyStr f.«to» then some (jsParseDate (f.«to».getD (""))) else none
  if f.«operator» == "dateRange" then
    match fromDate, toDate with
    | some fd, some td => optLe fd dateValue && optLe dateValue td
    | some fd, none => optLe fd dateValue
    | none, some td => optLe dateValue td
    | none, none => true
  else true

/-- The `case 'category'` branch (page.tsx 193–196): an empty (or
absent) `values` list passes everything; otherwise the stringified cell
must be a member. -/
def categoryMatches (f : Filter) (value : Option Value) : Bool :=
  let selectedValues := f.values.getD []
  if selectedValues.isEmpty then true
  else selectedValues.contains (jsStringU value)

/-- One filter applied to one row: the body of the `every` callback
(page.tsx 142–200), switching on `columnType` with default `true`. -/
def evalPredicate (f : Filter) (row : Row) : Bool :=
  let value := jsGet row f.columnName
  if f.columnType == "text" then textMatches f value
  else if f.columnType == "number" then numberMatches f value
  else if f.columnType == "date" then dateMatches f value
  else if f.columnType == "category" then categoryMatches f value
  else true

/-- The filter engine: the `filteredRowsWithIds` memo (page.tsx
134–203).  Empty row list short-circuits to `[]`; no active filters
short-circuits to the input; otherwise keep the rows on which every
active filter's predicate holds. -/
def filteredRowsWithIds (rowsWithIds : List RowWithId) (filters : List Filter) : List RowWithId :=
  if rowsWithIds.isEmpty then []
  else
    let activeFilters := filters.filter (fun f => f.isActive)
    if activeFilters.isEmpty then rowsWithIds
    else rowsWithIds.filter (fun r => activeFilters.all (fun f => evalPredicate f r.data))

/-! ## Spec-side definitions

Definitions below this point follow the spec's words (for refinement
statements) or package derived behaviour; they are compared against the
source-translated engine above, never used inside it. -/

/-- The operator names the text branch dispatches on (spec §4.1 table). -/
def textOps : List String := ["equals", "contains", "startsWith", "endsWith"]

/-- The operator names the number branch dispatches on (spec §4.1 table). -/
def numberOps : List String := ["equals", "greaterThan", "lessThan", "between"]

/-- The column types with a branch of their own in the evaluator. -/
def knownColumnTypes : List String := ["text", "number", "date", "category"]

/-- A `from`/`to` field read as a bound: `none` when the field is
absent or empty (falsy, hence no constraint), otherwise the parsed
instant (possibly invalid). -/
def dateBound (o : Option String) : Option (Option Int) :=
  if truthyStr o then some (jsParseDate (o.getD (""))) else none

/-- Modelled from the spec: "compared against optional `from`/`to`
bounds (inclusive); if only one bound given, the other side is
unconstrained; if neither given, predicate passes" — each side as an
independent inclusive constraint. -/
def dateRangeSpec (f : Filter) (cell : Option Int) : Bool :=
  (match dateBound f.«from» with
   | none => true
   | some b => optLe b cell)
  && (match dateBound f.«to» with
     | none => true
     | some b => optLe cell b)

/-- What a predicate yields on an explicit `null` cell (the amended
C2): the cell is coerced — `""` for text, `0` for number, an invalid
date for date, the string `"null"` for category — and the operator is
applied to that coerced value, so a null cell can match. -/
def nullCellSpec (f : Filter) : Bool :=
  if f.columnType == "text" then
    if f.«operator» ∈ textOps then f.value == "" else true
  else if f.columnType == "number" then
    let lo := jsStringToNumber f.value
    let hi := if truthyStr f.valueTo then jsStringToNumber (f.valueTo.getD ("")) else lo
    if f.«operator» == "equals" then optEq (some 0) lo
    else if f.«operator» == "greaterThan" then optLt lo (some 0)
    else if f.«operator» == "lessThan" then optLt (some 0) lo
    else if f.«operator» == "between" then optLe lo (some 0) && optLe (some 0) hi
    else true
  else if f.columnType == "date" then
    if f.«operator» == "dateRange" then !truthyStr f.«from» && !truthyStr f.«to» else true
  else if f.columnType == "category" then
    let sv := f.values.getD []
    sv.isEmpty || sv.contains ("null")
  else true

/-- What a predicate yields on a column missing from the row (the
amended C3): the lookup is `undefined`, coerced to `""` for text, `NaN`
for number (every numeric comparison fails), an invalid date for date,
and the string `"undefined"` for category — not always-true. -/
def missingColumnSpec (f : Filter) : Bool :=
  if f.columnType == "text" then
    if f.«operator» ∈ textOps then f.value == "" else true
  else if f.columnType == "number" then
    if f.«operator» ∈ numberOps then false else true
  else if f.columnType == "date" then
    if f.«operator» == "dateRange" then !truthyStr f.«from» && !truthyStr f.«to» else true
  else if f.columnType == "category" then
    let sv := f.values.getD []
    sv.isEmpty || sv.contains ("undefined")
  else true

/-! ## Concrete rows and filters for the spec's scenarios -/

/-- Scenario row `{region:"East", sales:10}`, identifier `"r1"`. -/
def rowEast10 : RowWithId := ⟨"r1", [("region", .str ("East")), ("sales", .num 10)]⟩

/-- Scenario row `{region:"West", sales:5}`, identifier `"r2"`. -/
def rowWest5 : RowWithId := ⟨"r2", [("region", .str ("West")), ("sales", .num 5)]⟩

/-- Scenario row `{region:"East", sales:3}`, identifier `"r3"`. -/
def rowEast3 : RowWithId := ⟨"r3", [("region", .str ("East")), ("sales", .num 3)]⟩

/-- The spec §8 scenario dataset. -/
def scenarioRows : List RowWithId := [rowEast10, rowWest5, rowEast3]

/-- Scenario filter `{columnName:"region", columnType:"text",
operator:"equals", value:"East", isActive:true}`. -/
def regionEqualsEast : Filter :=
  ⟨"f-region", "region", "text", "equals", true, "East", none, none, none, none⟩

/-- Scenario filter `{operator:"between", value:"4", valueTo:"12"}` on
column `sales`. -/
def salesBetween4And12 : Filter :=
  ⟨"f-sales", "sales", "number", "between", true, "4", some ("12"), none, none, none⟩

/-- The string the `between` upper bound is parsed from: `valueTo`
when truthy (present and non-empty), else `value` — the fallback the
code selects by truthiness. -/
def betweenUpperSource (f : Filter) : String :=
  if truthyStr f.valueTo then f.valueTo.getD ("") else f.value

/-- A between filter whose `valueTo` is present but empty (falsy). -/
def salesBetweenEmptyTo : Filter :=
  ⟨"f-sales-e", "sales", "number", "between", true, "4", some (""), none, none, none⟩

/-- Scenario filter `{operator:"dateRange", from:"2024-01-01"}` with no
`to`. -/
def fromJan2024 : Filter :=
  ⟨"f-date", "date", "date", "dateRange", true, "", none, none, some ("2024-01-01"), none⟩

/-- Date row one day before the scenario bound. -/
def rowDec31 : RowWithId := ⟨"d1", [("date", .str ("2023-12-31"))]⟩

/-- Date row exactly on the scenario bound. -/
def rowJan1 : RowWithId := ⟨"d2", [("date", .str ("2024-01-01"))]⟩

/-- Date row after the scenario bound. -/
def rowJun15 : RowWithId := ⟨"d3", [("date", .str ("2024-06-15"))]⟩

/-- Rows for the date-range scenario. -/
def dateRows : List RowWithId := [rowDec31, rowJan1, rowJun15]

/-! ## General lemmas about the engine -/

/-- The two short-circuit returns of `filteredRowsWithIds` are
observationally redundant: the engine always computes the
`List.filter` by the conjunction of the active predicates. -/
theorem filteredRowsWithIds_eq_filter (rows : List RowWithId) (filters : List Filter) :
    filteredRowsWithIds rows filters =
      rows.filter (fun r => (filters.filter (fun f => f.isActive)).all
        (fun f => evalPredicate f r.data)) := by
  unfold filteredRowsWithIds
  cases hrows : rows.isEmpty with
  | true =>
    rw [List.isEmpty_iff] at hrows
    simp [hrows]
  | false =>
    simp only [Bool.false_eq_true, if_false]
    cases hact : (filters.filter (fun f => f.isActive)).isEmpty with
    | true =>
      rw [List.isEmpty_iff] at hact
      simp [hact]
    | false =>
      simp [hact]

/-- Filtering by a conjunction keeps at most as many elements as
filtering by one conjunct. -/
theorem length_filter_and_le {α : Type} (l : List α) (p q : α → Bool) :
    (l.filter (fun a => p a && q a)).length ≤ (l.filter p).length := by
  induction l with
  | nil => simp
  | cons a t ih =>
    by_cases hp : p a <;> by_cases hq : q a <;>
      simp [List.filter_cons, hp, hq] <;> omega

/-! ## Claim theorems -/

/-- C1 — The engine returns exactly the `List.filter` of the input rows
by the conjunction of the predicates of the filters with
`isActive = true` (hence a subsequence in original relative order whose
elements — identifier and data alike — are unchanged), and filters with
`isActive = false` have no effect on the result. -/
theorem C1_engine_is_exact_filter (rows : List RowWithId) (filters : List Filter) :
    filteredRowsWithIds rows filters =
      rows.filter (fun r => (filters.filter (fun f => f.isActive)).all
        (fun f => evalPredicate f r.data))
    ∧ (filteredRowsWithIds rows filters).Sublist rows
    ∧ filteredRowsWithIds rows (filters.filter (fun f => f.isActive)) =
        filteredRowsWithIds rows filters := by
  refine ⟨filteredRowsWithIds_eq_filter rows filters, ?_, ?_⟩
  · rw [filteredRowsWithIds_eq_filter]
    exact List.filter_sublist rows
  · rw [filteredRowsWithIds_eq_filter, filteredRowsWithIds_eq_filter, List.filter_filter]
    simp

/-- C4 — Identity: an empty filter list, and a filter list all of whose
members have `isActive = false`, both return the row list unchanged. -/
theorem C4_identity :
    (∀ rows : List RowWithId, filteredRowsWithIds rows [] = rows)
    ∧ (∀ (rows : List RowWithId) (filters : List Filter),
        (∀ f ∈ filters, f.isActive = false) →
        filteredRowsWithIds rows filters = rows) := by
  constructor
  · intro rows
    rw [filteredRowsWithIds_eq_filter]
    simp
  · intro rows filters h
    rw [filteredRowsWithIds_eq_filter]
    have : filters.filter (fun f => f.isActive) = [] := by
      rw [List.filter_eq_nil_iff]
      intro f hf
      simp [h f hf]
    simp [this]

/-- Lower-casing yields the empty string only for the empty string. -/
theorem jsToLower_eq_empty_iff (s : String) : jsToLower s = "" ↔ s = "" := by
  constructor
  · intro h
    have : s.data.map Char.toLower = [] := congrArg String.data h
    rw [List.map_eq_nil_iff] at this
    exact String.ext this
  · intro h
    subst h
    rfl

/-- The empty string is included in, starts, and ends every string, and
is the only string included in the empty string. -/
theorem empty_includes_iff (t : String) : jsIncludes "" t = (t == "") := by
  by_cases h : t = ""
  · subst h; rfl
  · have hd : t.data ≠ [] := fun hc => h (String.ext hc)
    simp [jsIncludes, List.infix_nil, hd, h]

theorem empty_startsWith_iff (t : String) : jsStartsWith "" t = (t == "") := by
  by_cases h : t = ""
  · subst h; rfl
  · have hd : t.data ≠ [] := fun hc => h (String.ext hc)
    simp [jsStartsWith, List.prefix_nil, hd, h]

theorem empty_endsWith_iff (t : String) : jsEndsWith "" t = (t == "") := by
  by_cases h : t = ""
  · subst h; rfl
  · have hd : t.data ≠ [] := fun hc => h (String.ext hc)
    simp [jsEndsWith, List.suffix_nil, hd, h]

/-- On a cell whose text coercion is empty (`null` and `undefined`
both coalesce to `""`), the text branch matches exactly when the filter
value is empty (for the four recognized operators). -/
theorem textMatches_coerce_empty (f : Filter) (v : Option Value)
    (hv0 : jsTextCoerce v = "") :
    textMatches f v =
      (if f.«operator» ∈ textOps then f.value == "" else true) := by
  unfold textMatches textOps
  have hcoerce : jsToLower (jsTextCoerce v) = "" := by rw [hv0]; rfl
  rw [hcoerce]
  by_cases h1 : f.«operator» = "equals"
  · simp only [h1]
    by_cases hv : f.value = "" <;>
      simp [hv, Bool.beq_comm (a := ("" : String)), jsToLower_eq_empty_iff]
  · by_cases h2 : f.«operator» = "contains"
    · simp only [h2]
      simp [empty_includes_iff]
      by_cases hv : f.value = "" <;> simp [hv, jsToLower_eq_empty_iff]
    · by_cases h3 : f.«operator» = "startsWith"
      · simp only [h3]
        simp [empty_startsWith_iff]
        by_cases hv : f.value = "" <;> simp [hv, jsToLower_eq_empty_iff]
      · by_cases h4 : f.«operator» = "endsWith"
        · simp only [h4]
          simp [empty_endsWith_iff]
          by_cases hv : f.value = "" <;> simp [hv, jsToLower_eq_empty_iff]
        · simp [h1, h2, h3, h4]

/-- C2 (amended) — On a `null` cell, the predicate result is
`nullCellSpec`: the cell is coerced per column type (`""`, `0`, an
invalid date, `"null"`) and the operator applied to that coerced value;
it is not the constant non-match the original claim states. -/
theorem C2_null_cell_behaviour (f : Filter) (row : Row)
    (h : jsGet row f.columnName = some Value.null) :
    evalPredicate f row = nullCellSpec f := by
  unfold evalPredicate nullCellSpec
  rw [h]
  by_cases ht : f.columnType = "text"
  · simp [ht, textMatches_coerce_empty f (some Value.null) rfl]
  · by_cases hn : f.columnType = "number"
    · simp [ht, hn, numberMatches, show jsToNumber (some Value.null) = some 0 from rfl]
    · by_cases hd : f.columnType = "date"
      · simp only [ht, hn, hd]
        simp only [dateMatches]
        have hdv : jsToDate (some Value.null) = none := rfl
        rw [hdv]
        by_cases hop : f.«operator» = "dateRange"
        · simp only [hop]
          cases htf : truthyStr f.«from» <;> cases htt : truthyStr f.«to» <;>
            simp [htf, htt, optLe]
        · simp [hop]
      · by_cases hc : f.columnType = "category"
        · simp only [ht, hn, hd, hc]
          simp only [categoryMatches, jsStringU, Value.jsString]
          cases hsv : (f.values.getD []).isEmpty <;> simp [hsv]
        · simp [ht, hn, hd, hc]

/-- Comparisons against NaN (`none`) are false, on either side. -/
theorem optEq_none_left {α : Type} [DecidableEq α] (b : Option α) :
    optEq none b = false := by cases b <;> rfl

theorem optLt_none_left {α : Type} [LT α] [DecidableRel ((· < ·) : α → α → Prop)]
    (b : Option α) : optLt none b = false := by cases b <;> rfl

theorem optLt_none_right {α : Type} [LT α] [DecidableRel ((· < ·) : α → α → Prop)]
    (a : Option α) : optLt a none = false := by cases a <;> rfl

theorem optLe_none_left {α : Type} [LE α] [DecidableRel ((· ≤ ·) : α → α → Prop)]
    (b : Option α) : optLe none b = false := by cases b <;> rfl

theorem optLe_none_right {α : Type} [LE α] [DecidableRel ((· ≤ ·) : α → α → Prop)]
    (a : Option α) : optLe a none = false := by cases a <;> rfl

/-- C3 (amended) — On a column missing from the row, the predicate is
not always-true: the `undefined` lookup is coerced per column type
(`""` for text, `NaN` for number so every recognized numeric comparison
fails, an invalid date for date, `"undefined"` for category) and the
operator applied to that coerced value; the engine never errors, but a
row passes only when that coerced comparison accepts it. -/
theorem C3_missing_column_behaviour (f : Filter) (row : Row)
    (h : jsGet row f.columnName = none) :
    evalPredicate f row = missingColumnSpec f := by
  unfold evalPredicate missingColumnSpec
  rw [h]
  by_cases ht : f.columnType = "text"
  · simp [ht, textMatches_coerce_empty f none rfl]
  · by_cases hn : f.columnType = "number"
    · simp only [ht, hn, if_false, if_true]
      unfold numberMatches numberOps
      simp only [show jsToNumber none = none from rfl]
      by_cases e1 : f.«operator» = "equals"
      · simp [e1, optEq_none_left]
      · by_cases e2 : f.«operator» = "greaterThan"
        · simp [e1, e2, optLt_none_right]
        · by_cases e3 : f.«operator» = "lessThan"
          · simp [e1, e2, e3, optLt_none_left]
          · by_cases e4 : f.«operator» = "between"
            · simp [e1, e2, e3, e4, optLe_none_left]
            · simp [e1, e2, e3, e4]
    · by_cases hd : f.columnType = "date"
      · simp only [ht, hn, hd]
        simp only [dateMatches]
        have hdv : jsToDate none = none := rfl
        rw [hdv]
        by_cases hop : f.«operator» = "dateRange"
        · simp only [hop]
          cases htf : truthyStr f.«from» <;> cases htt : truthyStr f.«to» <;>
            simp [htf, htt, optLe]
        · simp [hop]
      · by_cases hc : f.columnType = "category"
        · simp only [ht, hn, hd, hc]
          simp only [categoryMatches, jsStringU]
          cases hsv : (f.values.getD []).isEmpty <;> simp [hsv]
        · simp [ht, hn, hd, hc]

/-- C3 (counterexample) — the claim "a filter on a missing column is
treated as always-true" fails: the active text filter on absent column
`ghost` with value `"x"` rejects a row (the `undefined` lookup coerces
to `""`, which differs from `"x"`), so the engine returns no rows where
the claim demands all rows. -/
theorem C3_counterexample :
    jsGet [("region", Value.str ("East"))] "ghost" = none ∧
      filteredRowsWithIds [⟨"r1", [("region", Value.str ("East"))]⟩]
        [⟨"c3", "ghost", "text", "equals", true, "x", none, none, none, none⟩] = [] := by
  decide

/-- C2 (counterexample) — the claim "a null cell compares as
not-matching for every predicate" fails: the active text filter
`{columnName:"region", operator:"equals", value:""}` matches a row
whose `region` cell is `null` (the null coerces to `""`). -/
theorem C2_counterexample :
    jsGet [("region", Value.null)] "region" = some Value.null ∧
      evalPredicate ⟨"c2", "region", "text", "equals", true, "", none, none, none, none⟩
        [("region", Value.null)] = true := by
  decide

/-- C9 — Monotonicity: appending one active filter never increases the
number of returned rows. -/
theorem C9_monotone (rows : List RowWithId) (F : List Filter) (f : Filter)
    (h : f.isActive = true) :
    (filteredRowsWithIds rows (F ++ [f])).length ≤
      (filteredRowsWithIds rows F).length := by
  rw [filteredRowsWithIds_eq_filter, filteredRowsWithIds_eq_filter, List.filter_append]
  have hf : List.filter (fun f => f.isActive) [f] = [f] := by
    simp [List.filter_cons, h]
  rw [hf]
  simp only [List.all_append, List.all_cons, List.all_nil, Bool.and_true]
  exact length_filter_and_le rows _ _

/-- C5 (amended) — `between` is inclusive on both ends: the row
matches iff the numeric coercions of the cell, of `value`, and of the
upper-bound source string all exist (are not NaN) and the cell lies
between them — the upper bound falling back to `value` whenever
`valueTo` is absent **or empty** (falsy), not merely when absent; and
the spec's scenario: between `"4"`/`"12"` on `sales` keeps the rows
with sales 10 and 5 and drops sales 3. -/
theorem C5_between_inclusive :
    (∀ (f : Filter) (row : Row),
      f.isActive = true → f.columnType = "number" → f.«operator» = "between" →
      (evalPredicate f row = true ↔ ∃ x lo hi,
        jsToNumber (jsGet row f.columnName) = some x ∧
        jsStringToNumber f.value = some lo ∧
        jsStringToNumber (betweenUpperSource f) = some hi ∧
        lo ≤ x ∧ x ≤ hi))
    ∧ filteredRowsWithIds scenarioRows [salesBetween4And12] = [rowEast10, rowWest5] := by
  constructor
  · intro f row hact ht hop
    have hmax : (if truthyStr f.valueTo then jsStringToNumber (f.valueTo.getD (""))
        else jsStringToNumber f.value) = jsStringToNumber (betweenUpperSource f) := by
      unfold betweenUpperSource
      cases htv : truthyStr f.valueTo <;> simp [htv]
    unfold evalPredicate numberMatches
    simp only [ht, hop, hmax]
    cases hx : jsToNumber (jsGet row f.columnName) <;>
      cases hlo : jsStringToNumber f.value <;>
        cases hhi : jsStringToNumber (betweenUpperSource f) <;>
          simp [optLe, hx, hlo, hhi]
  · decide

/-- C5 (counterexample) — the claim's upper bound, "the numeric
coercion of `valueTo`" whenever `valueTo` is present, fails on a
present-but-empty `valueTo`: `Number("") = 0`, so the claim demands
that a `sales = 4` row not match `between "4"/""` (4 ≤ 0 is false), yet
the code matches it because the falsy `valueTo` falls back to `value`. -/
theorem C5_counterexample :
    evalPredicate salesBetweenEmptyTo [("sales", Value.num 4)] = true ∧
      optLe (jsToNumber (jsGet [("sales", Value.num 4)] "sales"))
        (jsStringToNumber (salesBetweenEmptyTo.valueTo.getD salesBetweenEmptyTo.value)) =
        false := by
  decide

/-- C6 — The four text operators compare the coalesced cell string and
the filter value after lower-casing both sides, a null cell coercing to
the empty string; and the spec's scenario: `equals "East"` on `region`
keeps exactly the two East rows. -/
theorem C6_text_case_insensitive :
    (∀ (f : Filter) (row : Row),
      f.isActive = true → f.columnType = "text" →
      (f.«operator» = "equals" → evalPredicate f row =
        (jsToLower (jsTextCoerce (jsGet row f.columnName)) == jsToLower f.value))
      ∧ (f.«operator» = "contains" → evalPredicate f row =
        jsIncludes (jsToLower (jsTextCoerce (jsGet row f.columnName))) (jsToLower f.value))
      ∧ (f.«operator» = "startsWith" → evalPredicate f row =
        jsStartsWith (jsToLower (jsTextCoerce (jsGet row f.columnName))) (jsToLower f.value))
      ∧ (f.«operator» = "endsWith" → evalPredicate f row =
        jsEndsWith (jsToLower (jsTextCoerce (jsGet row f.columnName))) (jsToLower f.value))
      ∧ (jsGet row f.columnName = some Value.null →
        jsTextCoerce (jsGet row f.columnName) = ""))
    ∧ filteredRowsWithIds scenarioRows [regionEqualsEast] = [rowEast10, rowEast3] := by
  constructor
  · intro f row hact ht
    refine ⟨?_, ?_, ?_, ?_, ?_⟩
    · intro hop
      unfold evalPredicate textMatches
      simp [ht, hop]
    · intro hop
      unfold evalPredicate textMatches
      simp [ht, hop]
    · intro hop
      unfold evalPredicate textMatches
      simp [ht, hop]
    · intro hop
      unfold evalPredicate textMatches
      simp [ht, hop]
    · intro hnull
      rw [hnull]
      rfl
  · decide

/-- C7 — `dateRange` compares the coerced cell instant inclusively and
independently against whichever of the truthy `from`/`to` bounds exist
(none given ⇒ pass); and the spec's scenario: `from "2024-01-01"` with
no `to` keeps exactly the rows dated on or after 2024-01-01. -/
theorem C7_dateRange_bounds :
    (∀ (f : Filter) (row : Row),
      f.isActive = true → f.columnType = "date" → f.«operator» = "dateRange" →
      evalPredicate f row = dateRangeSpec f (jsToDate (jsGet row f.columnName)))
    ∧ filteredRowsWithIds dateRows [fromJan2024] = [rowJan1, rowJun15] := by
  constructor
  · intro f row hact ht hop
    unfold evalPredicate dateMatches dateRangeSpec dateBound
    simp only [ht, hop]
    cases htf : truthyStr f.«from» <;> cases htt : truthyStr f.«to» <;> simp [htf, htt]
  · decide

/-- C8 — Evaluation is total and permissive: an operator outside the
branch's recognized set (for the three operator-dispatching column
types) and a column type outside the four known ones both evaluate to
`true` for every row.  The category branch never consults the operator
(its implicit in-set test applies whatever the operator field holds),
so per the spec's operator table it has no unrecognized operators. -/
theorem C8_default_pass :
    (∀ (f : Filter) (row : Row), f.columnType = "text" → f.«operator» ∉ textOps →
      evalPredicate f row = true)
    ∧ (∀ (f : Filter) (row : Row), f.columnType = "number" → f.«operator» ∉ numberOps →
      evalPredicate f row = true)
    ∧ (∀ (f : Filter) (row : Row), f.columnType = "date" → f.«operator» ≠ "dateRange" →
      evalPredicate f row = true)
    ∧ (∀ (f : Filter) (row : Row), f.columnType ∉ knownColumnTypes →
      evalPredicate f row = true) := by
  refine ⟨?_, ?_, ?_, ?_⟩
  · intro f row ht hop
    simp only [textOps, List.mem_cons, List.mem_singleton, not_or] at hop
    unfold evalPredicate textMatches
    simp [ht, hop.1, hop.2.1, hop.2.2.1, hop.2.2.2]
  · intro f row ht hop
    simp only [numberOps, List.mem_cons, List.mem_singleton, not_or] at hop
    unfold evalPredicate numberMatches
    simp [ht, hop.1, hop.2.1, hop.2.2.1, hop.2.2.2]
  · intro f row ht hop
    unfold evalPredicate dateMatches
    simp [ht, hop]
  · intro f row ht
    simp only [knownColumnTypes, List.mem_cons, List.mem_singleton, not_or] at ht
    unfold evalPredicate
    simp [ht.1, ht.2.1, ht.2.2.1, ht.2.2.2]

/-- C10 — A present-but-empty `valueTo` behaves exactly as an absent
one: the upper bound of `between` falls back to `value` by truthiness
(`filter.valueTo ? … : filterNum`), not by presence.  (In the filter
type `valueTo` is an optional string, so the empty string is its only
falsy present value.) -/
theorem C10_falsy_valueTo (f : Filter) (row : Row) (_hact : f.isActive = true)
    (ht : f.columnType = "number") (_hop : f.«operator» = "between")
    (hv : f.valueTo = some ("")) :
    evalPredicate f row = evalPredicate { f with valueTo := none } row := by
  unfold evalPredicate numberMatches
  simp [ht, hv, truthyStr]

/-! ## Witnesses -/

theorem C4_identity_witness :
    (∀ f ∈ [({regionEqualsEast with isActive := false} : Filter)], f.isActive = false) ∧
      filteredRowsWithIds scenarioRows [{regionEqualsEast with isActive := false}] =
        scenarioRows :=
  ⟨by decide, C4_identity.2 scenarioRows _ (by decide)⟩

theorem C9_monotone_witness :
    regionEqualsEast.isActive = true ∧
      (filteredRowsWithIds scenarioRows ([] ++ [regionEqualsEast])).length ≤
        (filteredRowsWithIds scenarioRows []).length :=
  ⟨rfl, C9_monotone scenarioRows [] regionEqualsEast rfl⟩

theorem C2_null_cell_behaviour_witness :
    jsGet [("region", Value.null)] "region" = some Value.null ∧
      evalPredicate regionEqualsEast [("region", Value.null)] =
        nullCellSpec regionEqualsEast :=
  ⟨rfl, C2_null_cell_behaviour regionEqualsEast [("region", Value.null)] rfl⟩

theorem C3_missing_column_behaviour_witness :
    jsGet [("region", Value.str ("East"))] "sales" = none ∧
      evalPredicate salesBetween4And12 [("region", Value.str ("East"))] =
        missingColumnSpec salesBetween4And12 :=
  ⟨rfl, C3_missing_column_behaviour salesBetween4And12 [("region", Value.str ("East"))] rfl⟩

theorem C5_between_witness :
    salesBetween4And12.isActive = true ∧
      (evalPredicate salesBetween4And12 rowEast10.data = true ↔ ∃ x lo hi,
        jsToNumber (jsGet rowEast10.data salesBetween4And12.columnName) = some x ∧
        jsStringToNumber salesBetween4And12.value = some lo ∧
        jsStringToNumber (betweenUpperSource salesBetween4And12) = some hi ∧
        lo ≤ x ∧ x ≤ hi) :=
  ⟨rfl, C5_between_inclusive.1 salesBetween4And12 rowEast10.data rfl rfl rfl⟩

theorem C6_text_witness :
    regionEqualsEast.isActive = true ∧
      (regionEqualsEast.«operator» = "equals" → evalPredicate regionEqualsEast rowEast10.data =
        (jsToLower (jsTextCoerce (jsGet rowEast10.data regionEqualsEast.columnName)) ==
          jsToLower regionEqualsEast.value)) :=
  ⟨rfl, (C6_text_case_insensitive.1 regionEqualsEast rowEast10.data rfl rfl).1⟩

theorem C7_dateRange_witness :
    fromJan2024.isActive = true ∧
      evalPredicate fromJan2024 rowJan1.data =
        dateRangeSpec fromJan2024 (jsToDate (jsGet rowJan1.data fromJan2024.columnName)) :=
  ⟨rfl, C7_dateRange_bounds.1 fromJan2024 rowJan1.data rfl rfl rfl⟩

theorem C8_default_witness :
    ("frobnicate" ∉ textOps) ∧
      evalPredicate ⟨"c8", "region", "text", "frobnicate", true, "x", none, none, none, none⟩
        [("region", Value.str ("East"))] = true :=
  ⟨by decide,
    C8_default_pass.1 ⟨"c8", "region", "text", "frobnicate", true, "x", none, none, none, none⟩
      [("region", Value.str ("East"))] rfl (by decide)⟩

theorem C10_falsy_valueTo_witness :
    salesBetweenEmptyTo.valueTo = some ("") ∧
      evalPredicate salesBetweenEmptyTo rowEast10.data =
        evalPredicate { salesBetweenEmptyTo with valueTo := none } rowEast10.data :=
  ⟨rfl, C10_falsy_valueTo salesBetweenEmptyTo rowEast10.data rfl rfl rfl rfl⟩

end Dashboard
